import Mathlib

/-
  Verification of the Sharesight API client core
  (token lifecycle state machine, token store, request dispatcher),
  shallowly embedded from SharesightAPI/SharesightAPI.py.

  Python runtime values are modelled by the inductive `Py` (JSON-serializable
  values plus `None`); raised exceptions by `Except PyErr`; the persisted
  token file by `FileState`; time (`time.time()`) and wait durations by `ℚ`.
-/

namespace Sharesight

/-- A Python value as it can occur in the client's token data and JSON
bodies: `None`, booleans, numbers (floats/ints modelled as rationals),
strings, lists and string-keyed dictionaries. `json.loads` maps JSON
`null` to `None`, so both are `Py.none`. -/
inductive Py where
  | none
  | bool (b : Bool)
  | num (q : ℚ)
  | str (s : String)
  | list (xs : List Py)
  | dict (xs : List (String × Py))

/-- The exceptions the embedded code can raise. -/
inductive PyErr where
  | typeError
  | keyError
  | attributeError
  | fileNotFoundError
  | valueError
  deriving DecidableEq

/-- Python truthiness (`bool(v)`) on the modelled values. -/
def pyFalsy : Py → Bool
  | .none => true
  | .bool b => !b
  | .num q => q = 0
  | .str s => s = ""
  | .list xs => xs.isEmpty
  | .dict xs => xs.isEmpty

/-- First value stored under key `k`, as in a Python dict (keys are unique
in any dict produced by the code, so first-match lookup agrees). -/
def lookupKey : List (String × Py) → String → Option Py
  | [], _ => Option.none
  | (k, v) :: rest, key => if k = key then some v else lookupKey rest key

/-- Python `d.get(k)`: the stored value, or `None` when the key is absent. -/
def dictGet (m : List (String × Py)) (k : String) : Py :=
  match lookupKey m k with
  | some v => v
  | Option.none => .none

/-- Python `d.get(k, default)`. -/
def dictGetD (m : List (String × Py)) (k : String) (d : Py) : Py :=
  match lookupKey m k with
  | some v => v
  | Option.none => d

/-- Python `v[k]` for a string key: `KeyError` when the key is missing,
`TypeError` when `v` is not a dict. -/
def pyIndex (v : Py) (k : String) : Except PyErr Py :=
  match v with
  | .dict m =>
    match lookupKey m k with
    | some x => .ok x
    | Option.none => .error .keyError
  | _ => .error .typeError

/-- The numeric value of a Python object where one is accepted in
arithmetic/comparison with a float (numbers and booleans); `Option.none`
means a `TypeError` would be raised. -/
def numVal : Py → Option ℚ
  | .num q => some q
  | .bool b => some (if b then 1 else 0)
  | _ => Option.none

/-- The state of the persisted token file: absent, present but empty,
present with content that is not valid JSON, or present with content that
parses to the JSON value `v` (the file stores the serialization of `v`). -/
inductive FileState where
  | absent
  | empty
  | notJson (raw : String)
  | json (v : Py)

/-- The mutable state of a `SharesightAPI` instance that the token
lifecycle reads and writes: the four credential fields, the separately
kept `__load_auth_code`, the `__tokens_loaded` flag, the persistence mode
`__use_token_file`, and the token file itself. -/
structure ApiState where
  access_token : Py
  refresh_token : Py
  token_expiry : Py
  authorization_code : Py
  load_auth_code : Py
  tokens_loaded : Bool
  use_token_file : Bool
  file : FileState

/-- `load_tokens`: absent file, empty content, or content that fails JSON
decoding give `(None, None, None, None)`; decoded JSON is read with
`.get`, which raises `AttributeError` when the decoded value is not a
dict. -/
def loadTokens (f : FileState) : Except PyErr (Py × Py × Py × Py) :=
  match f with
  | .absent => .ok (.none, .none, .none, .none)
  | .empty => .ok (.none, .none, .none, .none)
  | .notJson _ => .ok (.none, .none, .none, .none)
  | .json v =>
    match v with
    | .dict m =>
      .ok (dictGet m "access_token", dictGet m "refresh_token",
           dictGet m "token_expiry", dictGet m "auth_code")
    | _ => .error .attributeError

/-- The JSON object `save_tokens` serializes into the token file. -/
def tokenFileContent (s : ApiState) : Py :=
  .dict [("access_token", s.access_token), ("refresh_token", s.refresh_token),
         ("token_expiry", s.token_expiry), ("auth_code", s.authorization_code)]

/-- `save_tokens`: overwrite the token file with the current four fields. -/
def saveTokens (s : ApiState) : ApiState :=
  { s with file := FileState.json (tokenFileContent s) }

/-- `get_token_data`: load the token file into the in-memory fields and
mark tokens as loaded. -/
def getTokenData (s : ApiState) : Except PyErr ApiState :=
  match loadTokens s.file with
  | .ok (a, r, e, c) =>
    .ok { s with access_token := a, refresh_token := r, token_expiry := e,
                 load_auth_code := c, tokens_loaded := true }
  | .error e => .error e

/-- A response from the OAuth2 token endpoint. -/
structure TokenResponse where
  status : Nat
  body : Py

/-- What a token exchange returns: the new access token on success, the
HTTP status code on failure. -/
inductive ExchangeResult where
  | token (v : Py)
  | status (code : Nat)

/-- The shared 200 branch of `get_access_token` and
`refresh_access_token`: read `access_token` and `refresh_token` from the
body by indexing (raising on a missing key or non-dict body), set expiry
to now plus `expires_in` (default `1800`), persist when in durable-file
mode, and return the new access token. -/
def applyTokenSuccess (s : ApiState) (t : ℚ) (body : Py) :
    Except PyErr (ApiState × ExchangeResult) :=
  match body with
  | .dict m =>
    match lookupKey m "access_token" with
    | Option.none => .error .keyError
    | some a =>
      match lookupKey m "refresh_token" with
      | Option.none => .error .keyError
      | some r =>
        match numVal (dictGetD m "expires_in" (.num 1800)) with
        | Option.none => .error .typeError
        | some d =>
          let s1 : ApiState :=
            { s with access_token := a, refresh_token := r,
                     token_expiry := Py.num (t + d) }
          .ok (if s1.use_token_file then saveTokens s1 else s1, .token a)
  | _ => .error .typeError

/-- `get_access_token`: exchange the authorization code; on a non-200
response (the 400 arm differs only in logging) return the status code
with no state change. -/
def getAccessToken (s : ApiState) (t : ℚ) (resp : TokenResponse) :
    Except PyErr (ApiState × ExchangeResult) :=
  if resp.status = 200 then applyTokenSuccess s t resp.body
  else .ok (s, .status resp.status)

/-- `refresh_access_token`: in durable-file mode first reload the token
file via `get_token_data`, then exchange the refresh token; on a non-200
response return the status code. -/
def refreshAccessToken (s : ApiState) (t : ℚ) (resp : TokenResponse) :
    Except PyErr (ApiState × ExchangeResult) :=
  match (if s.use_token_file then getTokenData s else .ok s) with
  | .error e => .error e
  | .ok s1 =>
    if resp.status = 200 then applyTokenSuccess s1 t resp.body
    else .ok (s1, .status resp.status)

/-- Which of the three exits `validate_token` takes. -/
inductive TokenPath where
  | noNetwork
  | viaGetAccess
  | viaRefresh
  deriving DecidableEq

/-- Number of token-endpoint network calls each path performs. -/
def networkCalls : TokenPath → Nat
  | .noNetwork => 0
  | .viaGetAccess => 1
  | .viaRefresh => 1

/-- The test `self.__authorization_code is None or self.__authorization_code == ""`
(in Python, `x == ""` holds only for the empty string). -/
def isNoneOrEmptyStr : Py → Bool
  | .none => true
  | .str s => s = ""
  | _ => false

/-- The authorization-code fallback inside `validate_token`: replace a
`None` or empty authorization code by the one loaded from the file. -/
def fixAuthCode (s : ApiState) : ApiState :=
  if isNoneOrEmptyStr s.authorization_code then
    { s with authorization_code := s.load_auth_code }
  else s

/-- `validate_token`: load the file on first use in durable mode, apply
the authorization-code fallback, then branch: `None` access token goes to
`get_access_token`; a present but falsy access token goes to
`refresh_access_token`; otherwise compare the current time against
`token_expiry` (`TypeError` when the expiry is not a number, as in
Python's `float >= None`), refreshing when `now >= expiry` and returning
the cached token when still valid. -/
def validateToken (s : ApiState) (t : ℚ) (resp : TokenResponse) :
    Except PyErr (ApiState × ExchangeResult × TokenPath) :=
  match (if s.use_token_file && !s.tokens_loaded then getTokenData s else .ok s) with
  | .error e => .error e
  | .ok s1 =>
    let s2 := fixAuthCode s1
    match s2.access_token with
    | .none =>
      (getAccessToken s2 t resp).map (fun p => (p.1, p.2, TokenPath.viaGetAccess))
    | a =>
      if pyFalsy a then
        (refreshAccessToken s2 t resp).map (fun p => (p.1, p.2, TokenPath.viaRefresh))
      else
        match numVal s2.token_expiry with
        | Option.none => .error PyErr.typeError
        | some e =>
          if e ≤ t then
            (refreshAccessToken s2 t resp).map (fun p => (p.1, p.2, TokenPath.viaRefresh))
          else .ok (s2, .token a, TokenPath.noNetwork)

/-- `inject_token`: a falsy argument does nothing; a truthy dict
overwrites the four fields from its `.get`s (missing keys becoming
`None`) and persists in durable-file mode; a truthy non-dict raises
`AttributeError` on `.get`. -/
def injectedState (s : ApiState) (m : List (String × Py)) : ApiState :=
  { s with authorization_code := dictGet m "auth_code",
           access_token := dictGet m "access_token",
           token_expiry := dictGet m "token_expiry",
           refresh_token := dictGet m "refresh_token" }

/-- `inject_token` itself, built on `injectedState`. -/
def injectToken (s : ApiState) (td : Py) : Except PyErr ApiState :=
  if pyFalsy td then .ok s
  else
    match td with
    | .dict m =>
      let s1 := injectedState s m
      .ok (if s1.use_token_file then saveTokens s1 else s1)
    | _ => .error .attributeError

/-- `delete_token`: `os.remove` on the token file, which raises
`FileNotFoundError` when the file is absent. -/
def deleteToken (f : FileState) : Except PyErr FileState :=
  match f with
  | .absent => .error .fileNotFoundError
  | _ => .ok .absent

/-- The Retry-After header of a response as `_request` processes it:
`absent` when the header is missing or present but empty (both falsy, so
the code falls back to exponential backoff); `numeric q` when the header
is a non-empty string that `float()` converts to `q`; `malformed raw`
when the header is a non-empty string (e.g. the HTTP-date form) on which
`float()` raises ValueError. The model carries `float()`'s outcome
directly since the code inspects nothing else about the string. -/
inductive RetryAfterHeader where
  | absent
  | numeric (q : ℚ)
  | malformed (raw : String)

/-- A response from a resource endpoint as `_request` observes it: the
HTTP status, the body (`Except.ok v` when `response.json()` parses to
`v`, `Except.error txt` when parsing fails and `response.text()` gives
`txt`), and the Retry-After header. -/
structure ApiResponse where
  status : Nat
  body : Except String Py
  retryAfter : RetryAfterHeader

/-- Body parsing in `_request`: the parsed JSON, or the synthesized
`{'error': text, 'status_code': status}` object when parsing fails. -/
def parseBody (r : ApiResponse) : Py :=
  match r.body with
  | .ok v => v
  | .error txt => .dict [("error", .str txt), ("status_code", .num r.status)]

/-- Membership in `_request`'s `retryable_statuses = {429, 500, 502, 503}`. -/
def retryableStatus (n : Nat) : Bool :=
  n = 429 || n = 500 || n = 502 || n = 503

/-- The wait computed before a retry: for 429 the truthy Retry-After
header goes through `float()` — yielding its numeric value, or raising
ValueError on a malformed header — and a falsy header falls back to
`retry_backoff * 2 ^ attempt`; for the other retryable statuses the wait
is always `retry_backoff * 2 ^ attempt`. -/
def retryWait (backoff : ℚ) (attempt : Nat) (r : ApiResponse) : Except PyErr ℚ :=
  if r.status = 429 then
    match r.retryAfter with
    | .numeric q => .ok q
    | .malformed _ => .error .valueError
    | .absent => .ok (backoff * 2 ^ attempt)
  else .ok (backoff * 2 ^ attempt)

/-- The retry loop of `_request` from a given attempt number, consuming
one response per attempt from the stream `rs`: on 200 return the parsed
body; on a retryable status with attempts remaining, compute the wait
(which can raise ValueError for a malformed Retry-After), sleep it and
continue; otherwise return the parsed body. The result is `.ok` of the
returned data together with the list of waits performed, `.error` when
an exception propagates, or `Option.none` when the response stream is
shorter than the attempts made. -/
def requestLoop (maxRetries : Nat) (backoff : ℚ) :
    Nat → List ApiResponse → Option (Except PyErr (Py × List ℚ))
  | _, [] => Option.none
  | attempt, r :: rest =>
    let data := parseBody r
    if r.status = 200 then some (.ok (data, []))
    else if retryableStatus r.status ∧ attempt < maxRetries then
      match retryWait backoff attempt r with
      | .error e => some (.error e)
      | .ok w =>
        match requestLoop maxRetries backoff (attempt + 1) rest with
        | some (.ok (d, ws)) => some (.ok (d, w :: ws))
        | some (.error e) => some (.error e)
        | Option.none => Option.none
    else some (.ok (data, []))

/-- `_request` as the caller sees it: the loop started at attempt 0. -/
def sendRequest (maxRetries : Nat) (backoff : ℚ) (rs : List ApiResponse) :
    Option (Except PyErr (Py × List ℚ)) :=
  requestLoop maxRetries backoff 0 rs

/-- A 500 response with a JSON body, for concrete evaluations. -/
def api500 : ApiResponse :=
  { status := 500, body := Except.ok (Py.str "boom"),
    retryAfter := RetryAfterHeader.absent }

/-- A 429 response carrying a numeric Retry-After hint of 7 seconds. -/
def api429 : ApiResponse :=
  { status := 429, body := Except.ok Py.none,
    retryAfter := RetryAfterHeader.numeric 7 }

/-- A 429 response whose Retry-After header is a non-numeric HTTP-date,
on which `float()` raises ValueError. -/
def api429bad : ApiResponse :=
  { status := 429, body := Except.ok Py.none,
    retryAfter := RetryAfterHeader.malformed "Wed, 21 Oct 2015 07:28:00 GMT" }

/-- A 200 response with a JSON body. -/
def api200 : ApiResponse :=
  { status := 200, body := Except.ok (Py.str "payload"),
    retryAfter := RetryAfterHeader.absent }

/-- A 404 response whose body fails to parse as JSON. -/
def api404 : ApiResponse :=
  { status := 404, body := Except.error "not found",
    retryAfter := RetryAfterHeader.absent }

theorem retryWait_error (b : ℚ) (a : Nat) (r : ApiResponse) (e : PyErr)
    (h : retryWait b a r = .error e) : e = PyErr.valueError := by
  unfold retryWait at h
  by_cases h429 : r.status = 429
  · rw [if_pos h429] at h
    cases hra : r.retryAfter with
    | absent => rw [hra] at h; simp at h
    | numeric q => rw [hra] at h; simp at h
    | malformed raw =>
      rw [hra] at h
      simp at h
      exact h.symm
  · rw [if_neg h429] at h; simp at h

theorem requestLoop_waits (mr : Nat) (b : ℚ) :
    ∀ (rs : List ApiResponse) (a : Nat) (res : Py) (ws : List ℚ),
      requestLoop mr b a rs = some (.ok (res, ws)) → a + ws.length ≤ mr ∨ ws = [] := by
  intro rs
  induction rs with
  | nil => intro a res ws h; simp [requestLoop] at h
  | cons r rest ih =>
    intro a res ws h
    by_cases h200 : r.status = 200
    · simp [requestLoop, h200] at h
      exact Or.inr h.2
    · by_cases hr : retryableStatus r.status ∧ a < mr
      · simp only [requestLoop, if_neg h200, if_pos hr] at h
        cases hw : retryWait b a r with
        | error e => rw [hw] at h; simp at h
        | ok w =>
          rw [hw] at h
          cases heq : requestLoop mr b (a + 1) rest with
          | none => rw [heq] at h; simp at h
          | some exr =>
            cases exr with
            | error e => rw [heq] at h; simp at h
            | ok p =>
              obtain ⟨d, ws1⟩ := p
              rw [heq] at h
              simp at h
              rcases ih (a + 1) d ws1 heq with hle | hnil
              · left
                rw [← h.2]
                simpa [Nat.add_comm, Nat.add_left_comm, Nat.add_assoc] using hle
              · left
                rw [← h.2, hnil]
                simpa using hr.2
      · simp [requestLoop, h200, if_neg hr] at h
        exact Or.inr h.2

theorem requestLoop_total (mr : Nat) (b : ℚ) :
    ∀ (rs : List ApiResponse) (a : Nat), rs ≠ [] → mr + 1 ≤ a + rs.length →
      ∃ out, requestLoop mr b a rs = some out := by
  intro rs
  induction rs with
  | nil => intro a hne; exact absurd rfl hne
  | cons r rest ih =>
    intro a hne hlen
    by_cases h200 : r.status = 200
    · exact ⟨.ok (parseBody r, []), by simp [requestLoop, h200]⟩
    · by_cases hr : retryableStatus r.status ∧ a < mr
      · cases hw : retryWait b a r with
        | error e =>
          exact ⟨.error e, by simp only [requestLoop, if_neg h200, if_pos hr, hw]⟩
        | ok w =>
          have hrest : rest ≠ [] := by
            intro hemp
            rw [hemp] at hlen
            simp at hlen
            omega
          have hlen2 : mr + 1 ≤ (a + 1) + rest.length := by
            simp at hlen
            omega
          obtain ⟨out1, hout⟩ := ih (a + 1) hrest hlen2
          cases out1 with
          | error e =>
            exact ⟨.error e,
              by simp only [requestLoop, if_neg h200, if_pos hr, hw, hout]⟩
          | ok p =>
            obtain ⟨d, ws⟩ := p
            exact ⟨.ok (d, w :: ws),
              by simp only [requestLoop, if_neg h200, if_pos hr, hw, hout]⟩
      · exact ⟨.ok (parseBody r, []), by simp [requestLoop, h200, if_neg hr]⟩

theorem requestLoop_error_only (mr : Nat) (b : ℚ) :
    ∀ (rs : List ApiResponse) (a : Nat) (e : PyErr),
      requestLoop mr b a rs = some (.error e) → e = PyErr.valueError := by
  intro rs
  induction rs with
  | nil => intro a e h; simp [requestLoop] at h
  | cons r rest ih =>
    intro a e h
    by_cases h200 : r.status = 200
    · simp [requestLoop, h200] at h
    · by_cases hr : retryableStatus r.status ∧ a < mr
      · simp only [requestLoop, if_neg h200, if_pos hr] at h
        cases hw : retryWait b a r with
        | error e1 =>
          rw [hw] at h
          simp at h
          rw [← h]
          exact retryWait_error b a r e1 hw
        | ok w =>
          rw [hw] at h
          cases heq : requestLoop mr b (a + 1) rest with
          | none => rw [heq] at h; simp at h
          | some exr =>
            cases exr with
            | error e2 =>
              rw [heq] at h
              simp at h
              rw [← h]
              exact ih (a + 1) e2 heq
            | ok p =>
              obtain ⟨d, ws⟩ := p
              rw [heq] at h
              simp at h
      · simp [requestLoop, h200, if_neg hr] at h

/-- C3: the dispatcher retries exactly the statuses 429, 500, 502 and
503 and only while attempts remain, so the wait list never exceeds
`max_retries` entries; the wait before a 429 retry is the server's
numeric Retry-After value when one is present and `base * 2 ^ attempt`
when the header is absent, and the wait before a 500/502/503 retry is
always `base * 2 ^ attempt`; with `max_retries = 0` a 500 response is
returned at once with no wait, and a non-retryable status is returned
immediately. -/
theorem request_retry_policy (mr : Nat) (b : ℚ) (a : Nat)
    (r : ApiResponse) (rest : List ApiResponse) :
    (retryableStatus r.status = false → r.status ≠ 200 →
      requestLoop mr b a (r :: rest) = some (.ok (parseBody r, []))) ∧
    (r.status = 500 →
      requestLoop 0 b 0 (r :: rest) = some (.ok (parseBody r, []))) ∧
    (retryableStatus r.status = true → a < mr → r.status ≠ 200 →
      requestLoop mr b a (r :: rest) =
        match retryWait b a r with
        | .error e => some (.error e)
        | .ok w =>
          match requestLoop mr b (a + 1) rest with
          | some (.ok (d, ws)) => some (.ok (d, w :: ws))
          | some (.error e) => some (.error e)
          | Option.none => Option.none) ∧
    (r.status = 429 → ∀ q, r.retryAfter = RetryAfterHeader.numeric q →
      retryWait b a r = .ok q) ∧
    (r.status = 429 → r.retryAfter = RetryAfterHeader.absent →
      retryWait b a r = .ok (b * 2 ^ a)) ∧
    (r.status = 500 ∨ r.status = 502 ∨ r.status = 503 →
      retryWait b a r = .ok (b * 2 ^ a)) ∧
    (∀ (rs : List ApiResponse) (res : Py) (ws : List ℚ),
      sendRequest mr b rs = some (.ok (res, ws)) → ws.length ≤ mr) := by
  refine ⟨?_, ?_, ?_, ?_, ?_, ?_, ?_⟩
  · intro hret h200
    simp [requestLoop, h200, hret]
  · intro h500
    have h200 : r.status ≠ 200 := by rw [h500]; omega
    simp [requestLoop, h200]
  · intro hret hlt h200
    simp only [requestLoop, if_neg h200, if_pos (And.intro hret hlt)]
  · intro h429 q hq
    simp [retryWait, h429, hq]
  · intro h429 hq
    simp [retryWait, h429, hq]
  · intro hst
    have h429 : r.status ≠ 429 := by rcases hst with h | h | h <;> rw [h] <;> omega
    simp [retryWait, h429]
  · intro rs res ws h
    rcases requestLoop_waits mr b rs 0 res ws h with hle | hnil
    · omega
    · simp [hnil]

/-- C3 witness: concrete runs of the dispatcher exercising each clause. -/
theorem request_retry_policy_witness :
    retryWait 1 0 api429 = .ok 7 ∧
    requestLoop 0 1 0 [api500] = some (.ok (parseBody api500, [])) ∧
    requestLoop 3 1 0 [api404, api200] = some (.ok (parseBody api404, [])) := by
  refine ⟨(request_retry_policy 1 1 0 api429 []).2.2.2.1 rfl 7 rfl,
          (request_retry_policy 0 1 0 api500 []).2.1 rfl,
          (request_retry_policy 3 1 0 api404 [api200]).1 rfl (by decide)⟩

/-- C4 counterexample: on a 429 with retries remaining and a present but
non-numeric Retry-After header, the dispatcher raises ValueError at
`float(retry_after)` — it does not return a parsed or synthesized body,
refuting the claim that it never raises for an API-level error status. -/
theorem request_raises_on_malformed_retry_header :
    requestLoop 1 1 0 [api429bad, api200] = some (.error PyErr.valueError) := rfl

/-- C4 amended: on HTTP 200 the dispatcher returns the parsed JSON body;
on any other terminal status (non-retryable, or retry budget exhausted)
it returns the parsed body when the body parses and otherwise the
synthesized object with the raw text and status code; the only exception
it can raise is the ValueError from `float()` on a present non-numeric
Retry-After header while preparing a 429 retry — apart from that path it
always produces a value when a response exists for each attempt made. -/
theorem request_result_shape (mr : Nat) (b : ℚ) (a : Nat)
    (r : ApiResponse) (rest : List ApiResponse) :
    (∀ v, r.body = Except.ok v → parseBody r = v) ∧
    (∀ txt, r.body = Except.error txt →
      parseBody r = Py.dict [("error", Py.str txt), ("status_code", Py.num r.status)]) ∧
    (r.status = 200 → requestLoop mr b a (r :: rest) = some (.ok (parseBody r, []))) ∧
    (r.status ≠ 200 → retryableStatus r.status = false →
      requestLoop mr b a (r :: rest) = some (.ok (parseBody r, []))) ∧
    (mr ≤ a → requestLoop mr b a (r :: rest) = some (.ok (parseBody r, []))) ∧
    (r.status = 429 → a < mr → ∀ raw, r.retryAfter = RetryAfterHeader.malformed raw →
      requestLoop mr b a (r :: rest) = some (.error PyErr.valueError)) ∧
    (∀ (rs : List ApiResponse) (e : PyErr),
      requestLoop mr b a rs = some (.error e) → e = PyErr.valueError) ∧
    (∀ rs : List ApiResponse, rs ≠ [] → mr + 1 ≤ a + rs.length →
      ∃ out, requestLoop mr b a rs = some out) := by
  refine ⟨?_, ?_, ?_, ?_, ?_, ?_, fun rs e => requestLoop_error_only mr b rs a e,
          fun rs => requestLoop_total mr b rs a⟩
  · intro v hv; simp [parseBody, hv]
  · intro txt htxt; simp [parseBody, htxt]
  · intro h200; simp [requestLoop, h200]
  · intro h200 hret; simp [requestLoop, h200, hret]
  · intro hle
    by_cases h200 : r.status = 200
    · simp [requestLoop, h200]
    · have hno : ¬ (retryableStatus r.status ∧ a < mr) := by
        intro hc; omega
      simp [requestLoop, h200, if_neg hno]
  · intro h429 hlt raw hraw
    have h200 : r.status ≠ 200 := by rw [h429]; omega
    have hret : retryableStatus r.status = true := by simp [retryableStatus, h429]
    have hw : retryWait b a r = .error PyErr.valueError := by
      simp [retryWait, h429, hraw]
    simp only [requestLoop, if_neg h200, if_pos (And.intro hret hlt), hw]

/-- C4 witness: concrete evaluations of the result shape, including the
ValueError raise on a malformed Retry-After 429 retry. -/
theorem request_result_shape_witness :
    parseBody api200 = Py.str "payload" ∧
    parseBody api404 = Py.dict [("error", Py.str "not found"), ("status_code", Py.num 404)] ∧
    requestLoop 3 1 0 [api200] = some (.ok (Py.str "payload", [])) ∧
    requestLoop 3 1 0 [api429bad, api200] = some (.error PyErr.valueError) := by
  have h := request_result_shape 3 1 0 api200 []
  have h4 := request_result_shape 3 1 0 api404 []
  have hb := request_result_shape 3 1 0 api429bad [api200]
  refine ⟨h.1 (Py.str "payload") rfl, ?_, ?_, ?_⟩
  · simpa using h4.2.1 "not found" rfl
  · have := h.2.2.1 rfl
    simpa [h.1 (Py.str "payload") rfl] using this
  · exact hb.2.2.2.2.2.1 rfl (by omega) "Wed, 21 Oct 2015 07:28:00 GMT" rfl

theorem fixAuthCode_access (s : ApiState) :
    (fixAuthCode s).access_token = s.access_token := by
  unfold fixAuthCode; split <;> rfl

theorem fixAuthCode_expiry (s : ApiState) :
    (fixAuthCode s).token_expiry = s.token_expiry := by
  unfold fixAuthCode; split <;> rfl

theorem fixAuthCode_use_file (s : ApiState) :
    (fixAuthCode s).use_token_file = s.use_token_file := by
  unfold fixAuthCode; split <;> rfl

theorem fixAuthCode_loaded (s : ApiState) :
    (fixAuthCode s).tokens_loaded = s.tokens_loaded := by
  unfold fixAuthCode; split <;> rfl

theorem fixAuthCode_idem (s : ApiState) :
    fixAuthCode (fixAuthCode s) = fixAuthCode s := by
  by_cases h : isNoneOrEmptyStr s.authorization_code = true
  · have h1 : fixAuthCode s = { s with authorization_code := s.load_auth_code } := by
      unfold fixAuthCode; rw [if_pos h]
    rw [h1]
    unfold fixAuthCode
    split <;> rfl
  · have h1 : fixAuthCode s = s := by unfold fixAuthCode; rw [if_neg h]
    rw [h1, h1]

theorem validateToken_valid (s : ApiState) (t : ℚ) (resp : TokenResponse)
    (tok : String) (e : ℚ)
    (hload : s.use_token_file = false ∨ s.tokens_loaded = true)
    (hacc : s.access_token = Py.str tok) (hne : tok ≠ "")
    (hexp : s.token_expiry = Py.num e) (ht : t < e) :
    validateToken s t resp =
      .ok (fixAuthCode s, .token (Py.str tok), TokenPath.noNetwork) := by
  have hcond : (s.use_token_file && !s.tokens_loaded) = false := by
    rcases hload with h | h <;> simp [h]
  have hacc2 : (fixAuthCode s).access_token = Py.str tok := by
    rw [fixAuthCode_access, hacc]
  have hexp2 : (fixAuthCode s).token_expiry = Py.num e := by
    rw [fixAuthCode_expiry, hexp]
  have hfalsy : pyFalsy (Py.str tok) = false := by simp [pyFalsy, hne]
  have hnle : ¬ e ≤ t := not_le.mpr ht
  unfold validateToken
  simp only [hcond, Bool.false_eq_true, if_false, hacc2, hexp2, hfalsy, numVal, hnle]

/-- A token-endpoint failure response used in concrete evaluations. -/
def resp500 : TokenResponse := { status := 500, body := Py.none }

/-- A credential state that is Valid at any time before 1000: a non-empty
cached token with expiry 1000, in caller-managed mode. -/
def validState : ApiState :=
  { access_token := Py.str "cached", refresh_token := Py.str "r",
    token_expiry := Py.num 1000, authorization_code := Py.str "c",
    load_auth_code := Py.none, tokens_loaded := true,
    use_token_file := false, file := FileState.absent }

/-- C5: in a Valid state (non-empty access token, numeric expiry strictly
in the future), `validate_token` returns the cached token on the
no-network path with zero network calls, and a second call on the state
the first call leaves behind does the same. -/
theorem validate_valid_cached_no_network (s : ApiState) (t t2 : ℚ)
    (resp resp2 : TokenResponse) (tok : String) (e : ℚ)
    (hload : s.use_token_file = false ∨ s.tokens_loaded = true)
    (hacc : s.access_token = Py.str tok) (hne : tok ≠ "")
    (hexp : s.token_expiry = Py.num e) (ht : t < e) (ht2 : t2 < e) :
    (validateToken s t resp =
      .ok (fixAuthCode s, .token (Py.str tok), TokenPath.noNetwork) ∧
     networkCalls TokenPath.noNetwork = 0) ∧
    validateToken (fixAuthCode s) t2 resp2 =
      .ok (fixAuthCode s, .token (Py.str tok), TokenPath.noNetwork) := by
  refine ⟨⟨validateToken_valid s t resp tok e hload hacc hne hexp ht, rfl⟩, ?_⟩
  have hload2 : (fixAuthCode s).use_token_file = false ∨
      (fixAuthCode s).tokens_loaded = true := by
    rcases hload with h | h
    · exact Or.inl (by rw [fixAuthCode_use_file]; exact h)
    · exact Or.inr (by rw [fixAuthCode_loaded]; exact h)
  have h2 := validateToken_valid (fixAuthCode s) t2 resp2 tok e hload2
    (by rw [fixAuthCode_access]; exact hacc) hne
    (by rw [fixAuthCode_expiry]; exact hexp) ht2
  rw [fixAuthCode_idem] at h2
  exact h2

/-- C5 witness: a concrete Valid state, validated twice with zero network
calls each time. -/
theorem validate_valid_cached_no_network_witness :
    (validateToken validState 5 resp500 =
      .ok (fixAuthCode validState, .token (Py.str "cached"), TokenPath.noNetwork) ∧
     networkCalls TokenPath.noNetwork = 0) ∧
    validateToken (fixAuthCode validState) 6 resp500 =
      .ok (fixAuthCode validState, .token (Py.str "cached"), TokenPath.noNetwork) :=
  validate_valid_cached_no_network validState 5 6 resp500 resp500 "cached" 1000
    (Or.inl rfl) rfl (by decide) rfl (by norm_num) (by norm_num)

/-- A credential state whose access token is present but the empty
string, with tokens already loaded. -/
def emptyTokenState : ApiState :=
  { access_token := Py.str "", refresh_token := Py.str "r",
    token_expiry := Py.num 100, authorization_code := Py.str "c",
    load_auth_code := Py.none, tokens_loaded := true,
    use_token_file := false, file := FileState.absent }

/-- C1 counterexample: with a present-but-empty access token,
`validate_token` takes the refresh-token path (`refresh_access_token`),
not the `get_access_token` (NoToken) path the claim asserts. -/
theorem empty_token_not_no_token_path :
    validateToken emptyTokenState 0 resp500 =
      .ok (emptyTokenState, .status 500, TokenPath.viaRefresh) ∧
    TokenPath.viaRefresh ≠ TokenPath.viaGetAccess :=
  ⟨rfl, by decide⟩

/-- C1 amended: an empty-string access token sends `validate_token` down
the `refresh_access_token` branch, which is distinct from the
`get_access_token` branch taken when the token is `None`. -/
theorem validate_empty_token_uses_refresh (s : ApiState) (t : ℚ)
    (resp : TokenResponse)
    (hload : s.use_token_file = false ∨ s.tokens_loaded = true)
    (hacc : s.access_token = Py.str "") :
    validateToken s t resp =
      (refreshAccessToken (fixAuthCode s) t resp).map
        (fun p => (p.1, p.2, TokenPath.viaRefresh)) := by
  have hcond : (s.use_token_file && !s.tokens_loaded) = false := by
    rcases hload with h | h <;> simp [h]
  have hacc2 : (fixAuthCode s).access_token = Py.str "" := by
    rw [fixAuthCode_access, hacc]
  have hfalsy : pyFalsy (Py.str "") = true := rfl
  unfold validateToken
  simp only [hcond, Bool.false_eq_true, if_false, hacc2, hfalsy, if_true]

/-- C1 witness for the amended statement, at the concrete empty-token
state. -/
theorem validate_empty_token_uses_refresh_witness :
    validateToken emptyTokenState 3 resp500 =
      (refreshAccessToken (fixAuthCode emptyTokenState) 3 resp500).map
        (fun p => (p.1, p.2, TokenPath.viaRefresh)) :=
  validate_empty_token_uses_refresh emptyTokenState 3 resp500 (Or.inl rfl) rfl

/-- A credential state with a non-empty access token but no stored
expiry. -/
def noExpiryState : ApiState :=
  { access_token := Py.str "tok", refresh_token := Py.str "r",
    token_expiry := Py.none, authorization_code := Py.str "c",
    load_auth_code := Py.none, tokens_loaded := true,
    use_token_file := false, file := FileState.absent }

/-- C8 counterexample: with a non-empty access token and an absent
expiry, `validate_token` raises a TypeError (Python compares a float
against None) instead of treating the token as not valid and renewing. -/
theorem validate_missing_expiry_crashes :
    validateToken noExpiryState 0 resp500 = .error PyErr.typeError := rfl

/-- C8 amended: when the access token is present and non-empty but
`token_expiry` is absent, `validate_token` crashes with a TypeError at
the expiry comparison; the no-crash "unknown means never valid" policy
the claim states is not implemented. -/
theorem validate_missing_expiry_type_error (s : ApiState) (t : ℚ)
    (resp : TokenResponse) (tok : String)
    (hload : s.use_token_file = false ∨ s.tokens_loaded = true)
    (hacc : s.access_token = Py.str tok) (hne : tok ≠ "")
    (hexp : s.token_expiry = Py.none) :
    validateToken s t resp = .error PyErr.typeError := by
  have hcond : (s.use_token_file && !s.tokens_loaded) = false := by
    rcases hload with h | h <;> simp [h]
  have hacc2 : (fixAuthCode s).access_token = Py.str tok := by
    rw [fixAuthCode_access, hacc]
  have hexp2 : (fixAuthCode s).token_expiry = Py.none := by
    rw [fixAuthCode_expiry, hexp]
  have hfalsy : pyFalsy (Py.str tok) = false := by simp [pyFalsy, hne]
  unfold validateToken
  simp only [hcond, Bool.false_eq_true, if_false, hacc2, hexp2, hfalsy, numVal]

/-- C8 witness for the amended statement. -/
theorem validate_missing_expiry_type_error_witness :
    validateToken noExpiryState 1 resp500 = .error PyErr.typeError :=
  validate_missing_expiry_type_error noExpiryState 1 resp500 "tok"
    (Or.inl rfl) rfl (by decide) rfl

/-- C2 counterexample state: durable-file mode, in-memory access token
"a", persisted file holding access token "b". -/
def preRefreshState : ApiState :=
  { access_token := Py.str "a", refresh_token := Py.str "r",
    token_expiry := Py.num 50, authorization_code := Py.str "c",
    load_auth_code := Py.none, tokens_loaded := true,
    use_token_file := true,
    file := FileState.json (Py.dict [("access_token", Py.str "b")]) }

/-- The state the failed refresh leaves behind: the persisted snapshot
has been reloaded into memory. -/
def reloadedState : ApiState :=
  { access_token := Py.str "b", refresh_token := Py.none,
    token_expiry := Py.none, authorization_code := Py.str "c",
    load_auth_code := Py.none, tokens_loaded := true,
    use_token_file := true,
    file := FileState.json (Py.dict [("access_token", Py.str "b")]) }

/-- C2 counterexample: a failed (500) refresh in durable-file mode does
change the in-memory credential fields — `refresh_access_token` reloads
the persisted snapshot before the exchange, moving the access token from
"a" to "b" even though the exchange itself failed. -/
theorem refresh_failure_reload_changes_memory :
    refreshAccessToken preRefreshState 0 resp500 =
      .ok (reloadedState, .status 500) ∧
    reloadedState.access_token ≠ preRefreshState.access_token := by
  refine ⟨rfl, ?_⟩
  show Py.str "b" ≠ Py.str "a"
  intro h
  exact absurd (Py.str.inj h) (by decide)

/-- C2 amended: on any non-200 token-endpoint response nothing is written
to persistence and the HTTP status code is returned; `get_access_token`
leaves all four credential fields unchanged, as does
`refresh_access_token` in caller-managed mode; in durable-file mode
`refresh_access_token` first reloads the persisted snapshot into memory
via `get_token_data` (which never writes the file) before returning the
status. -/
theorem failed_exchange_frame (s : ApiState) (t : ℚ) (resp : TokenResponse)
    (h200 : resp.status ≠ 200) :
    getAccessToken s t resp = .ok (s, .status resp.status) ∧
    (s.use_token_file = false →
      refreshAccessToken s t resp = .ok (s, .status resp.status)) ∧
    (s.use_token_file = true →
      refreshAccessToken s t resp =
        (getTokenData s).map (fun s1 => (s1, ExchangeResult.status resp.status))) ∧
    (∀ s1, getTokenData s = .ok s1 → s1.file = s.file) := by
  refine ⟨?_, ?_, ?_, ?_⟩
  · simp [getAccessToken, h200]
  · intro h
    simp [refreshAccessToken, h, h200]
  · intro h
    unfold refreshAccessToken
    simp only [h, if_true]
    cases hg : getTokenData s with
    | error e => rfl
    | ok s1 => simp [Except.map, h200]
  · intro s1 h
    unfold getTokenData at h
    cases hl : loadTokens s.file with
    | error e => rw [hl] at h; exact absurd h (by simp)
    | ok q =>
      obtain ⟨a, r, e2, c⟩ := q
      rw [hl] at h
      simp only [Except.ok.injEq] at h
      rw [← h]

/-- C2 witness: in caller-managed mode a 500 leaves the concrete state
untouched and returns the status for both exchanges. -/
theorem failed_exchange_frame_witness :
    getAccessToken validState 0 resp500 = .ok (validState, .status 500) ∧
    refreshAccessToken validState 0 resp500 = .ok (validState, .status 500) := by
  have h := failed_exchange_frame validState 0 resp500 (by decide)
  exact ⟨h.1, h.2.1 rfl⟩

/-- C6: saving the credential record and loading it back yields exactly
the four saved fields, with `None` fields round-tripping as `None`. -/
theorem save_load_roundtrip (s : ApiState) :
    loadTokens (saveTokens s).file =
      .ok (s.access_token, s.refresh_token, s.token_expiry, s.authorization_code) := rfl

/-- C7 counterexample: a token file whose content is valid JSON but not
an object (here an empty array) makes `load_tokens` raise AttributeError
instead of returning the zero record. -/
theorem load_tokens_nonobject_raises :
    loadTokens (FileState.json (Py.list [])) = .error PyErr.attributeError := rfl

/-- C7 amended: `load_tokens` returns the all-absent record and does not
raise when the file is absent, empty, or fails JSON decoding; but when
the file decodes to a non-object JSON value it raises AttributeError. -/
theorem load_tokens_zero_record (f : FileState) :
    ((f = FileState.absent ∨ f = FileState.empty ∨
        ∃ raw, f = FileState.notJson raw) →
      loadTokens f = .ok (Py.none, Py.none, Py.none, Py.none)) ∧
    (∀ v : Py, (∀ m, v ≠ Py.dict m) →
      loadTokens (FileState.json v) = .error PyErr.attributeError) := by
  constructor
  · rintro (rfl | rfl | ⟨raw, rfl⟩) <;> rfl
  · intro v hv
    cases v with
    | dict m => exact absurd rfl (hv m)
    | none => rfl
    | bool b => rfl
    | num q => rfl
    | str s2 => rfl
    | list xs => rfl

/-- C7 witness: the absent-file and non-object cases evaluated
concretely. -/
theorem load_tokens_zero_record_witness :
    loadTokens FileState.absent = .ok (Py.none, Py.none, Py.none, Py.none) ∧
    loadTokens (FileState.json (Py.num 3)) = .error PyErr.attributeError :=
  ⟨(load_tokens_zero_record FileState.absent).1 (Or.inl rfl),
   (load_tokens_zero_record (FileState.json (Py.num 3))).2 (Py.num 3)
     (fun _ h => Py.noConfusion h)⟩

/-- C9 counterexample: deleting when no persisted state exists fails —
`delete_token` calls `os.remove`, which raises FileNotFoundError on an
absent file. -/
theorem delete_token_absent_raises :
    deleteToken FileState.absent = .error PyErr.fileNotFoundError := rfl

/-- C9 amended: `delete_token` raises FileNotFoundError when the file is
already absent, and otherwise removes the persisted state; no
StorageError wrapping exists in the code. -/
theorem delete_token_behavior (f : FileState) :
    (f = FileState.absent → deleteToken f = .error PyErr.fileNotFoundError) ∧
    (f ≠ FileState.absent → deleteToken f = .ok FileState.absent) := by
  constructor
  · rintro rfl; rfl
  · intro h
    cases f with
    | absent => exact absurd rfl h
    | empty => rfl
    | notJson raw => rfl
    | json v => rfl

/-- C9 witness: deleting a present and an absent file. -/
theorem delete_token_behavior_witness :
    deleteToken FileState.empty = .ok FileState.absent ∧
    deleteToken FileState.absent = .error PyErr.fileNotFoundError :=
  ⟨(delete_token_behavior FileState.empty).2 (fun h => FileState.noConfusion h),
   (delete_token_behavior FileState.absent).1 rfl⟩

/-- C10: a falsy `token_data` (None or the empty dict) leaves the state,
including the persisted file, untouched even in durable-file mode; a
truthy dict overwrites all four credential fields from its `.get`s
(missing keys becoming `None`) and persists only in durable-file mode. -/
theorem inject_token_frame (s : ApiState) (td : Py) (m : List (String × Py)) :
    (td = Py.none ∨ td = Py.dict [] → injectToken s td = .ok s) ∧
    (m ≠ [] → injectToken s (Py.dict m) =
      .ok (if s.use_token_file then saveTokens (injectedState s m)
           else injectedState s m)) ∧
    (injectedState s m).access_token = dictGet m "access_token" ∧
    (injectedState s m).refresh_token = dictGet m "refresh_token" ∧
    (injectedState s m).token_expiry = dictGet m "token_expiry" ∧
    (injectedState s m).authorization_code = dictGet m "auth_code" := by
  refine ⟨?_, ?_, rfl, rfl, rfl, rfl⟩
  · rintro (rfl | rfl) <;> rfl
  · intro hm
    have hf : pyFalsy (Py.dict m) = false := by
      cases m with
      | nil => exact absurd rfl hm
      | cons p rest => rfl
    unfold injectToken
    simp only [hf, Bool.false_eq_true, if_false]
    rfl

/-- C10 witness: a falsy and a truthy injection on a concrete state. -/
theorem inject_token_frame_witness :
    injectToken validState Py.none = .ok validState ∧
    injectToken validState (Py.dict [("access_token", Py.str "x")]) =
      .ok (injectedState validState [("access_token", Py.str "x")]) := by
  have h1 := (inject_token_frame validState Py.none
      [("access_token", Py.str "x")]).1 (Or.inl rfl)
  have h2 := (inject_token_frame validState
      (Py.dict [("access_token", Py.str "x")])
      [("access_token", Py.str "x")]).2.1 (by simp)
  exact ⟨h1, h2⟩

end Sharesight
